import Mathlib

/-!
# Verification of the coding-agent-sdk protocol unification layer

Shallow embedding of the SDK's per-backend event mappers
(`src/mappers/claude-mapper.ts`, `src/mappers/codex-mapper.ts`,
`src/mappers/gemini-mapper.ts`), the backend discovery logic
(`src/utils/auto-detect.ts`), the query orchestrator's backend
resolution (`src/index.ts`), and the session streaming state machine
(`src/client/session.ts`, in its connection-closure-aware variant).

Raw backend messages are dynamically typed JavaScript values, so they are
modelled by an untyped `JValue` tree; JavaScript property access on
`null`/`undefined` raises a `TypeError`, which the embedding models with
`Except JsErr`.  Mapper outputs (TypeScript object literals) are modelled
as `JValue` objects whose fields appear in the source's literal order.
-/

namespace AgentSdk

/-- A dynamically-typed JavaScript value (the shape of a parsed JSON line,
plus `undefined`, which JavaScript produces for absent object fields). -/
inductive JValue where
  | vNull
  | vUndefined
  | vBool (b : Bool)
  | vNum (n : Int)
  | vStr (s : String)
  | vArr (elems : List JValue)
  | vObj (fields : List (String × JValue))
  deriving Repr

namespace JValue

/-- Association-list lookup over an object's fields (first binding wins,
as in a JavaScript object literal read). -/
def lookupField : List (String × JValue) → String → Option JValue
  | [], _ => none
  | (k, v) :: rest, key => if k = key then some v else lookupField rest key

/-- A JavaScript runtime error raised during mapping. -/
inductive JsErr where
  | typeError (msg : String)
  deriving DecidableEq, Repr

/-- JavaScript property access `o.k`: raises `TypeError` when `o` is
`null` or `undefined`; yields `undefined` for a missing field or for a
field read on a primitive; arrays expose `length`. -/
def get : JValue → String → Except JsErr JValue
  | vNull, k => .error (.typeError ("Cannot read properties of null (reading " ++ k ++ ")"))
  | vUndefined, k => .error (.typeError ("Cannot read properties of undefined (reading " ++ k ++ ")"))
  | vObj fs, k => .ok ((lookupField fs k).getD vUndefined)
  | vArr xs, k => .ok (if k = "length" then vNum xs.length else vUndefined)
  | _, _ => .ok vUndefined

/-- JavaScript optional chaining `o?.k`: `undefined` when `o` is nullish,
otherwise an ordinary (never-throwing, since `o` is not nullish) read. -/
def getOpt : JValue → String → JValue
  | vNull, _ => vUndefined
  | vUndefined, _ => vUndefined
  | vObj fs, k => (lookupField fs k).getD vUndefined
  | vArr xs, k => if k = "length" then vNum xs.length else vUndefined
  | _, _ => vUndefined

/-- JavaScript truthiness. -/
def truthy : JValue → Bool
  | vNull => false
  | vUndefined => false
  | vBool b => b
  | vNum n => n != 0
  | vStr s => s != ""
  | vArr _ => true
  | vObj _ => true

/-- Strict equality `v === "lit"` against a string literal `lit` (true
only when `v` is a string with exactly that content). -/
def isStrEq (v : JValue) (lit : String) : Bool :=
  match v with
  | vStr s => s = lit
  | _ => false

/-- JavaScript `a || b`. -/
def jsOr (a b : JValue) : JValue := if truthy a then a else b

/-- JavaScript `a > n` for a numeric literal `n`: true only when `a` is a
number greater than `n` (comparisons against `undefined` are false). -/
def jsGtNum (a : JValue) (n : Int) : Bool :=
  match a with
  | vNum m => n < m
  | _ => false

/-- Pure field read used in specification statements: the field's value in
an object, `undefined` otherwise (total, unlike `get`). -/
def field (v : JValue) (k : String) : JValue :=
  match v with
  | vObj fs => (lookupField fs k).getD vUndefined
  | vArr xs => if k = "length" then vNum xs.length else vUndefined
  | _ => vUndefined

/-- True when the value is neither `null` nor `undefined` (property
reads on such a value cannot throw). -/
def notNullish : JValue → Bool
  | vNull => false
  | vUndefined => false
  | _ => true

theorem get_eq_ok_field {v : JValue} (h : notNullish v = true) (k : String) :
    v.get k = .ok (v.field k) := by
  cases v <;> simp_all [notNullish, get, field]

/-- JavaScript string coercion as performed by a template literal. -/
def jsString : JValue → String
  | vNull => "null"
  | vUndefined => "undefined"
  | vBool b => if b then "true" else "false"
  | vNum n => toString n
  | vStr s => s
  | vObj _ => "[object Object]"
  | vArr xs => String.intercalate "," (xs.attach.map (fun x => jsString x.1))
decreasing_by
  have := List.sizeOf_lt_of_mem x.2
  simp only [vArr.sizeOf_spec]
  omega

end JValue

open JValue in
/-- JavaScript `Object.keys(v)`: field names of an object, index strings of an array
or a string, `[]` for other primitives, `TypeError` on `null`/`undefined`
(from `src/mappers/claude-mapper.ts`, which only applies it after `|| {}`). -/
def jsObjectKeys : JValue → Except JsErr JValue
  | .vObj fs => .ok (.vArr (fs.map (fun f => .vStr f.1)))
  | .vArr xs => .ok (.vArr ((List.range xs.length).map (fun i => .vStr (toString i))))
  | .vStr s => .ok (.vArr ((List.range s.length).map (fun i => .vStr (toString i))))
  | .vNull => .error (.typeError "Cannot convert undefined or null to object")
  | .vUndefined => .error (.typeError "Cannot convert undefined or null to object")
  | _ => .ok (.vArr [])

open JValue

/-!
## Gemini mapper (`src/mappers/gemini-mapper.ts`, `mapGeminiEvent`)

Each branch builds the same object literals, with fields in source order.
-/

/-- Embedding of `mapGeminiEvent`: one raw Gemini stream-json event to a
list of unified events (`Except` models a thrown `TypeError`). -/
def mapGeminiEvent (event : JValue) : Except JsErr (List JValue) := do
  let ty ← event.get "type"
  if ty.isStrEq "init" then
    let sid ← event.get "session_id"
    let ts ← event.get "timestamp"
    let model ← event.get "model"
    pure [.vObj [("type", .vStr "session"), ("subtype", .vStr "init"),
                 ("session_id", sid), ("backend", .vStr "gemini"),
                 ("timestamp", ts), ("metadata", .vObj [("model", model)])]]
  else if ty.isStrEq "message" then
    let role ← event.get "role"
    let content ← event.get "content"
    let delta ← event.get "delta"
    let ts ← event.get "timestamp"
    pure [.vObj [("type", .vStr "message"), ("role", role), ("content", content),
                 ("is_delta", delta.jsOr (.vBool false)), ("timestamp", ts)]]
  else if ty.isStrEq "tool_use" then
    let tid ← event.get "tool_id"
    let tname ← event.get "tool_name"
    let params ← event.get "parameters"
    let ts ← event.get "timestamp"
    pure [.vObj [("type", .vStr "action"), ("subtype", .vStr "tool"),
                 ("action_id", tid), ("status", .vStr "started"),
                 ("tool_name", tname), ("tool_input", params), ("timestamp", ts)]]
  else if ty.isStrEq "tool_result" then
    let tid ← event.get "tool_id"
    let st ← event.get "status"
    let output ← event.get "output"
    let errv ← event.get "error"
    let ts ← event.get "timestamp"
    pure [.vObj [("type", .vStr "action"), ("subtype", .vStr "tool"),
                 ("action_id", tid),
                 ("status", if st.isStrEq "success" then .vStr "completed" else .vStr "failed"),
                 ("tool_output", output), ("tool_error", errv.getOpt "message"),
                 ("timestamp", ts)]]
  else if ty.isStrEq "error" then
    let sev ← event.get "severity"
    let msg ← event.get "message"
    let ts ← event.get "timestamp"
    pure [.vObj [("type", .vStr "error"),
                 ("severity", if sev.isStrEq "warning" then .vStr "warning" else .vStr "error"),
                 ("message", msg), ("timestamp", ts)]]
  else if ty.isStrEq "result" then
    let st ← event.get "status"
    let main ← (do
      if st.isStrEq "error" then
        let errv ← event.get "error"
        let ts ← event.get "timestamp"
        pure [.vObj [("type", .vStr "turn"), ("subtype", .vStr "failed"),
                     ("error", (errv.getOpt "message").jsOr (.vStr "Unknown error")),
                     ("timestamp", ts)]]
      else do
        let stats ← event.get "stats"
        if stats.truthy then
          let ts ← event.get "timestamp"
          let inTok ← stats.get "input_tokens"
          let outTok ← stats.get "output_tokens"
          let toolCalls ← stats.get "tool_calls"
          pure [.vObj [("type", .vStr "turn"), ("subtype", .vStr "completed"),
                       ("timestamp", ts),
                       ("usage", .vObj [("input_tokens", inTok), ("output_tokens", outTok)])],
                .vObj [("type", .vStr "metrics"), ("subtype", .vStr "session_summary"),
                       ("timestamp", ts),
                       ("per_tool",
                        if toolCalls.truthy then
                          .vObj [("all_tools", .vObj [("calls", toolCalls)])]
                        else .vUndefined)]]
        else
          pure [])
    let ts ← event.get "timestamp"
    pure (main ++ [.vObj [("type", .vStr "session"), ("subtype", .vStr "end"),
                          ("session_id", .vStr "unknown"), ("backend", .vStr "gemini"),
                          ("timestamp", ts)]])
  else
    pure []

/-!
## Codex mapper (`src/mappers/codex-mapper.ts`)
-/

/-- Embedding of `mapItemStatus`: derive a unified status from the
enclosing event's lifecycle phase, consulting the item's own `status`
field only on `item.completed` (that read throws when `item` is nullish,
exactly as `item.status` does in the source). -/
def mapItemStatus (item : JValue) (eventType : String) : Except JsErr String :=
  if eventType = "item.started" then pure "started"
  else if eventType = "item.updated" then pure "in_progress"
  else if eventType = "item.completed" then do
    let st ← item.get "status"
    if st.isStrEq "failed" then pure "failed" else pure "completed"
  else pure "in_progress"

/-- Embedding of `mapCommandStatus`. -/
def mapCommandStatus (status : JValue) : String :=
  if status.isStrEq "in_progress" then "in_progress"
  else if status.isStrEq "completed" then "completed"
  else if status.isStrEq "failed" then "failed"
  else "in_progress"

/-- Embedding of `mapMcpStatus`. -/
def mapMcpStatus (status : JValue) : String :=
  if status.isStrEq "in_progress" then "in_progress"
  else if status.isStrEq "completed" then "completed"
  else if status.isStrEq "failed" then "failed"
  else "in_progress"

/-- Sequential `forEach`-style accumulation: apply `f` to each element in
order, collecting the produced events, propagating a thrown error. -/
def forEachM (f : JValue → Except JsErr JValue) : List JValue → Except JsErr (List JValue)
  | [] => .ok []
  | c :: rest => do
      let e ← f c
      let es ← forEachM f rest
      pure (e :: es)

/-- The body of the `item.changes.forEach` callback in `mapCodexItem`'s
`file_change` case: one `changes` entry to one unified `action` event. -/
def codexFileChangeEvent (item : JValue) (change : JValue) : Except JsErr JValue := do
  let iid ← item.get "id"
  let ist ← item.get "status"
  let path ← change.get "path"
  let kind ← change.get "kind"
  pure (JValue.vObj [("type", .vStr "action"), ("subtype", .vStr "file_change"),
                     ("action_id", iid),
                     ("status", if ist.isStrEq "completed"
                                then .vStr "completed" else .vStr "failed"),
                     ("file_path", path), ("change_type", kind)])

/-- Embedding of `mapCodexItem`: one Codex `ThreadItem` to a list of
unified events.  `eventType` is the enclosing event's `type` string. -/
def mapCodexItem (item : JValue) (eventType : String) : Except JsErr (List JValue) := do
  let status ← mapItemStatus item eventType
  let ity ← item.get "type"
  if ity.isStrEq "agent_message" then
    let text ← item.get "text"
    pure [.vObj [("type", .vStr "message"), ("role", .vStr "assistant"), ("content", text)]]
  else if ity.isStrEq "reasoning" then
    let iid ← item.get "id"
    let text ← item.get "text"
    pure [.vObj [("type", .vStr "action"), ("subtype", .vStr "reasoning"),
                 ("action_id", iid), ("status", .vStr "completed"),
                 ("reasoning_text", text)]]
  else if ity.isStrEq "command_execution" then
    let iid ← item.get "id"
    let ist ← item.get "status"
    let cmd ← item.get "command"
    let aggOut ← item.get "aggregated_output"
    let exitCode ← item.get "exit_code"
    pure [.vObj [("type", .vStr "action"), ("subtype", .vStr "command"),
                 ("action_id", iid), ("status", .vStr (mapCommandStatus ist)),
                 ("command", cmd), ("command_output", aggOut), ("exit_code", exitCode)]]
  else if ity.isStrEq "file_change" then
    let chs ← item.get "changes"
    match chs with
    | .vArr cs => forEachM (codexFileChangeEvent item) cs
    | .vNull => .error (.typeError "Cannot read properties of null (reading forEach)")
    | .vUndefined => .error (.typeError "Cannot read properties of undefined (reading forEach)")
    | _ => .error (.typeError "item.changes.forEach is not a function")
  else if ity.isStrEq "mcp_tool_call" then
    let iid ← item.get "id"
    let ist ← item.get "status"
    let tool ← item.get "tool"
    let args ← item.get "arguments"
    let res ← item.get "result"
    let errv ← item.get "error"
    let server ← item.get "server"
    pure [.vObj [("type", .vStr "action"), ("subtype", .vStr "mcp_tool"),
                 ("action_id", iid), ("status", .vStr (mapMcpStatus ist)),
                 ("tool_name", tool), ("tool_input", args),
                 ("tool_output", res.getOpt "content"),
                 ("tool_error", errv.getOpt "message"),
                 ("metadata", .vObj [("mcp_server", server),
                                     ("structured_result", res.getOpt "structured_content")])]]
  else if ity.isStrEq "web_search" then
    let iid ← item.get "id"
    let queryv ← item.get "query"
    pure [.vObj [("type", .vStr "action"), ("subtype", .vStr "web_search"),
                 ("action_id", iid), ("status", .vStr status),
                 ("search_query", queryv)]]
  else if ity.isStrEq "todo_list" then
    let items ← item.get "items"
    match items with
    | .vArr ts =>
      let todoItems ← ts.mapM (fun todo => do
        let text ← todo.get "text"
        let comp ← todo.get "completed"
        pure (JValue.vObj [("title", text),
                           ("status", if comp.truthy then .vStr "completed"
                                      else .vStr "pending")]))
      pure [.vObj [("type", .vStr "progress"), ("subtype", .vStr "todo_update"),
                   ("todo_items", .vArr todoItems)]]
    | .vNull => .error (.typeError "Cannot read properties of null (reading map)")
    | .vUndefined => .error (.typeError "Cannot read properties of undefined (reading map)")
    | _ => .error (.typeError "item.items.map is not a function")
  else if ity.isStrEq "error" then
    let msg ← item.get "message"
    let iid ← item.get "id"
    pure [.vObj [("type", .vStr "error"), ("severity", .vStr "error"),
                 ("message", msg), ("related_action_id", iid)]]
  else
    pure []

/-- Embedding of `mapCodexEvent`: one Codex `ThreadEvent` to a list of
unified events.  On `turn.completed` the source reads
`event.usage.input_tokens` without a guard, so a missing `usage` field
throws; likewise `event.error.message` on `turn.failed`. -/
def mapCodexEvent (event : JValue) : Except JsErr (List JValue) := do
  let ty ← event.get "type"
  if ty.isStrEq "thread.started" then
    let tid ← event.get "thread_id"
    pure [.vObj [("type", .vStr "session"), ("subtype", .vStr "init"),
                 ("session_id", tid), ("backend", .vStr "codex")]]
  else if ty.isStrEq "turn.started" then
    pure [.vObj [("type", .vStr "turn"), ("subtype", .vStr "started")]]
  else if ty.isStrEq "turn.completed" then
    let usage ← event.get "usage"
    let inTok ← usage.get "input_tokens"
    let outTok ← usage.get "output_tokens"
    let cached ← usage.get "cached_input_tokens"
    pure [.vObj [("type", .vStr "turn"), ("subtype", .vStr "completed"),
                 ("usage", .vObj [("input_tokens", inTok), ("output_tokens", outTok),
                                  ("cached_tokens", cached)])]]
  else if ty.isStrEq "turn.failed" then
    let errv ← event.get "error"
    let msg ← errv.get "message"
    pure [.vObj [("type", .vStr "turn"), ("subtype", .vStr "failed"), ("error", msg)]]
  else if ty.isStrEq "item.started" then
    let it ← event.get "item"
    mapCodexItem it "item.started"
  else if ty.isStrEq "item.updated" then
    let it ← event.get "item"
    mapCodexItem it "item.updated"
  else if ty.isStrEq "item.completed" then
    let it ← event.get "item"
    mapCodexItem it "item.completed"
  else if ty.isStrEq "error" then
    let msg ← event.get "message"
    pure [.vObj [("type", .vStr "error"), ("severity", .vStr "fatal"), ("message", msg)]]
  else
    pure []

/-!
## Claude mapper (`src/mappers/claude-mapper.ts`, `mapClaudeEvent`)
-/

/-- One content block of a Claude `assistant` message (with its index) to
its unified events (`message.message.content?.forEach` body). -/
def mapClaudeAssistantBlock (idx : Nat) (block : JValue) : Except JsErr (List JValue) := do
  let bty ← block.get "type"
  if bty.isStrEq "text" then
    let text ← block.get "text"
    pure [.vObj [("type", .vStr "message"), ("role", .vStr "assistant"),
                 ("content", text), ("content_index", .vNum idx)]]
  else if bty.isStrEq "tool_use" then
    let bid ← block.get "id"
    let name ← block.get "name"
    let input ← block.get "input"
    pure [.vObj [("type", .vStr "action"), ("subtype", .vStr "tool"),
                 ("action_id", bid), ("status", .vStr "started"),
                 ("tool_name", name), ("tool_input", input)]]
  else if bty.isStrEq "thinking" then
    let th ← block.get "thinking"
    pure [.vObj [("type", .vStr "action"), ("subtype", .vStr "reasoning"),
                 ("status", .vStr "completed"), ("reasoning_text", th)]]
  else
    pure []

/-- One content block of a Claude `user` message to its unified events
(`userMsg.content?.forEach` body). -/
def mapClaudeUserBlock (block : JValue) : Except JsErr (List JValue) := do
  let bty ← block.get "type"
  if bty.isStrEq "text" then
    let text ← block.get "text"
    let pid ← block.get "parent_tool_use_id"
    pure [.vObj [("type", .vStr "message"), ("role", .vStr "user"),
                 ("content", text), ("parent_id", pid)]]
  else if bty.isStrEq "tool_result" then
    let isErrRaw ← block.get "is_error"
    let isError := (isErrRaw.jsOr (.vBool false)).truthy
    let tuid ← block.get "tool_use_id"
    let content ← block.get "content"
    pure [.vObj [("type", .vStr "action"), ("subtype", .vStr "tool"),
                 ("action_id", tuid),
                 ("status", if isError then .vStr "failed" else .vStr "completed"),
                 ("tool_output", content),
                 ("tool_error", if isError then content else .vUndefined)]]
  else
    pure []

/-- Embedding of `mapClaudeEvent`: one Claude SDK message to a list of
unified events.  On `result` the source dereferences `message.result`
without a guard (`result.usage?...`), so a missing `result` field throws. -/
def mapClaudeEvent (message : JValue) : Except JsErr (List JValue) := do
  let ty ← message.get "type"
  if ty.isStrEq "system" then
    let sid ← message.get "sessionId"
    let tools ← message.get "tools"
    let toolNames ← (match tools with
      | .vNull => pure JValue.vUndefined
      | .vUndefined => pure JValue.vUndefined
      | .vArr ts => do
          let names ← ts.mapM (fun t => t.get "name")
          pure (JValue.vArr names)
      | _ => .error (.typeError "message.tools.map is not a function"))
    let mcp ← message.get "mcpServers"
    let mcpKeys ← jsObjectKeys (mcp.jsOr (.vObj []))
    let cwd ← message.get "cwd"
    pure [.vObj [("type", .vStr "session"), ("subtype", .vStr "init"),
                 ("session_id", sid.jsOr (.vStr "unknown")), ("backend", .vStr "claude"),
                 ("metadata", .vObj [("tools", toolNames), ("mcp_servers", mcpKeys),
                                     ("working_dir", cwd)])]]
  else if ty.isStrEq "assistant" then
    let msg ← message.get "message"
    let content ← msg.get "content"
    match content with
    | .vNull => pure []
    | .vUndefined => pure []
    | .vArr blocks => do
        let evss ← blocks.enum.mapM (fun p => mapClaudeAssistantBlock p.1 p.2)
        pure evss.flatten
    | _ => .error (.typeError "msg.content.forEach is not a function")
  else if ty.isStrEq "user" then
    let msg ← message.get "message"
    let content ← msg.get "content"
    match content with
    | .vNull => pure []
    | .vUndefined => pure []
    | .vArr blocks => do
        let evss ← blocks.mapM mapClaudeUserBlock
        pure evss.flatten
    | _ => .error (.typeError "userMsg.content.forEach is not a function")
  else if ty.isStrEq "message_start" || ty.isStrEq "content_block_start" ||
          ty.isStrEq "content_block_delta" || ty.isStrEq "content_block_stop" ||
          ty.isStrEq "message_delta" || ty.isStrEq "message_stop" then
    if ty.isStrEq "content_block_delta" then
      let delta ← message.get "delta"
      let dty ← delta.get "type"
      if dty.isStrEq "text_delta" then
        let text ← delta.get "text"
        let idx ← message.get "index"
        pure [.vObj [("type", .vStr "message"), ("role", .vStr "assistant"),
                     ("content", text), ("is_delta", .vBool true),
                     ("content_index", idx)]]
      else pure []
    else pure []
  else if ty.isStrEq "result" then
    let result ← message.get "result"
    let usage ← result.get "usage"
    let turnEvt := JValue.vObj
      [("type", .vStr "turn"), ("subtype", .vStr "completed"),
       ("usage", .vObj [("input_tokens", usage.getOpt "input_tokens"),
                        ("output_tokens", usage.getOpt "output_tokens"),
                        ("cached_tokens", usage.getOpt "cache_read_input_tokens")])]
    let sid ← result.get "sessionId"
    let sessionEvt := JValue.vObj
      [("type", .vStr "session"), ("subtype", .vStr "end"),
       ("session_id", sid.jsOr (.vStr "unknown")), ("backend", .vStr "claude")]
    let mu ← result.get "modelUsage"
    let metricsEvts ← (do
      if mu.truthy then
        let entries := match mu with
          | .vObj fs => fs
          | _ => []
        let perModel ← entries.mapM (fun e => do
          let u := e.2
          let inTok ← u.get "inputTokens"
          let outTok ← u.get "outputTokens"
          let cached ← u.get "cacheReadInputTokens"
          let cost ← u.get "costUSD"
          pure (e.1, JValue.vObj [("requests", .vNum 1),
                                  ("tokens", .vObj [("input", inTok), ("output", outTok),
                                                    ("cached", cached)]),
                                  ("cost_usd", cost)]))
        let webReq ← result.get "webSearchRequests"
        pure [JValue.vObj [("type", .vStr "metrics"), ("subtype", .vStr "session_summary"),
                           ("per_model", .vObj perModel),
                           ("web_search", .vObj [("total_requests", webReq.jsOr (.vNum 0))])]]
      else pure [])
    let pd ← result.get "permissionDenials"
    let denialEvts ← (do
      if (pd.getOpt "length").jsGtNum 0 then
        match pd with
        | .vArr ds =>
          ds.mapM (fun denial => do
            let toolName ← denial.get "toolName"
            let tuid ← denial.get "toolUseId"
            pure (JValue.vObj
              [("type", .vStr "error"), ("severity", .vStr "warning"),
               ("message", .vStr ("Permission denied for tool: " ++ toolName.jsString)),
               ("related_action_id", tuid)]))
        | _ => .error (.typeError "result.permissionDenials.forEach is not a function")
      else pure [])
    pure ([turnEvt, sessionEvt] ++ metricsEvts ++ denialEvts)
  else if ty.isStrEq "tool_progress" then
    let tuid ← message.get "toolUseId"
    let ems ← message.get "elapsedMs"
    pure [.vObj [("type", .vStr "progress"), ("subtype", .vStr "elapsed_time"),
                 ("action_id", tuid), ("elapsed_ms", ems)]]
  else if ty.isStrEq "status" then
    let st ← message.get "status"
    pure [.vObj [("type", .vStr "progress"), ("subtype", .vStr "status_update"),
                 ("status_message", st)]]
  else if ty.isStrEq "compact_boundary" then
    pure [.vObj [("type", .vStr "progress"), ("subtype", .vStr "status_update"),
                 ("status_message", .vStr "Context compaction in progress")]]
  else
    pure []

/-!
## Backend discovery (`src/utils/auto-detect.ts`) and the query
orchestrator's backend resolution (`src/index.ts`)

Binary probing (`isBinaryAvailable`) is external I/O (filesystem checks,
`which`, `command -v`, a `--version` run); for a fixed host environment
its outcome is a fixed predicate, modelled here as the oracle
`hasBinary : Backend → Bool`.  The process environment is modelled as an
association list of variable names to values.
-/

inductive Backend where
  | claude
  | codex
  | gemini
  deriving DecidableEq, Repr

/-- The backend's display name (used in error messages). -/
def Backend.name : Backend → String
  | .claude => "claude"
  | .codex => "codex"
  | .gemini => "gemini"

/-- The credential environment variable consulted for each backend
(`getApiKey`'s `switch`). -/
def Backend.envVar : Backend → String
  | .claude => "ANTHROPIC_API_KEY"
  | .codex => "OPENAI_API_KEY"
  | .gemini => "GEMINI_API_KEY"

/-- The process environment: variable names to values. -/
def Env : Type := List (String × String)

/-- Embedding of `getApiKey`: the backend's credential variable, failing
(with the source's message) when it is unset or empty (`if (!key)`). -/
def getApiKey (backend : Backend) (env : Env) : Except String String :=
  let key := List.lookup backend.envVar env
  match key with
  | some k =>
      if k = "" then
        .error ("Backend '" ++ backend.name ++ "' requires " ++ backend.envVar ++
                " environment variable to be set")
      else .ok k
  | none =>
      .error ("Backend '" ++ backend.name ++ "' requires " ++ backend.envVar ++
              " environment variable to be set")

structure DetectionResult where
  backend : Backend
  apiKey : String
  deriving DecidableEq, Repr

/-- Embedding of `detectBackend`: collect the backends whose binary is
found (in the fixed priority order claude, codex, gemini), fail when none
is found, otherwise take the first and fail distinctly when its
credential is missing (the multiple-binaries case only logs a warning). -/
def detectBackend (hasBinary : Backend → Bool) (env : Env) :
    Except String DetectionResult :=
  let backends : List Backend := [.claude, .codex, .gemini]
  let availableBackends := backends.filter hasBinary
  match availableBackends with
  | [] => .error "No agent binaries found. Please install one of: claude, codex, or gemini"
  | backend :: _ =>
      match getApiKey backend env with
      | .ok apiKey => .ok ⟨backend, apiKey⟩
      | .error m =>
          .error ("Found '" ++ backend.name ++ "' binary but API key not configured. " ++ m)

/-- Embedding of `isBackendAvailable`: binary found and the credential
variable truthy (`!!process.env...`). -/
def isBackendAvailable (hasBinary : Backend → Bool) (env : Env) (backend : Backend) : Bool :=
  if hasBinary backend then
    match List.lookup backend.envVar env with
    | some k => k != ""
    | none => false
  else false

/-- Modelled from the spec: the claim's availability notion for C5 — "a
backend counts as available only if a runnable binary is found AND its
corresponding credential environment variable is non-empty" — applied to
the priority-ordered backend list.  Stated from the spec's words, for
comparison with `detectBackend` (which the source implements with a
binary-only filter). -/
def specAvailableBackends (hasBinary : Backend → Bool) (env : Env) : List Backend :=
  [Backend.claude, .codex, .gemini].filter
    (fun b => hasBinary b && (match List.lookup b.envVar env with
                              | some k => k != ""
                              | none => false))

/-- Embedding of the backend-resolution step of `query` (`src/index.ts`):
an explicit `options.backend` skips discovery but is passed to
`getApiKey` ("Verify API key is set for selected backend"); otherwise
`detectBackend` decides. -/
def queryResolveBackend (optsBackend : Option Backend) (hasBinary : Backend → Bool)
    (env : Env) : Except String Backend :=
  match optsBackend with
  | some backend => (getApiKey backend env).map (fun _ => backend)
  | none => (detectBackend hasBinary env).map (fun d => d.backend)

/-!
## Session streaming state machine (`Session` in the
connection-closure-aware `session.ts` variant)

JavaScript is single-threaded: each callback (`handleUpdate`, the RPC
`.then`/`.catch`, the abort listener) and each synchronous run of the
generator between suspension points executes atomically.  A turn of
`Session.prompt()` is therefore a deterministic transition system driven
by a schedule of atomic events:

* `push u` — `handleUpdate(u)` runs (a `session/update` notification);
* `resolve r` — the `connection.prompt(...).then` callback runs with
  `response.stopReason = r`;
* `reject` — the `.catch` callback runs (RPC failure);
* `close` — the `connection.signal` abort listener runs;
* `run` — the consumer's pending `next()` lets the generator continue to
  its next suspension point.

The generator position tracks the `async *prompt` body: `atLoop` (about
to call `waitForUpdate`), `waiting` (an `updateResolver` is registered),
`resumed u` (the awaited `waitForUpdate` promise has settled with `u`,
but the continuation — the `update === null || this.promptComplete`
check — has not yet run: the microtask gap), `draining` (inside the
`while (this.pendingUpdates.length > 0)` drain loop), and `done`.
Update payloads are abstracted as `Nat` (the state machine never
inspects them). -/

inductive StopReason where
  | end_turn
  | max_tokens
  | refusal
  | cancelled
  deriving DecidableEq, Repr

inductive GenPos where
  | atLoop
  | waiting
  | resumed (u : Option Nat)
  | draining
  | done
  deriving DecidableEq, Repr

/-- The mutable fields of `Session` relevant to one turn, plus the
generator position and the updates yielded so far (`out`). -/
structure TurnState where
  pendingUpdates : List Nat
  updateResolver : Bool
  promptComplete : Bool
  lastStopReason : StopReason
  connectionClosed : Bool
  rpcRejected : Bool
  pos : GenPos
  out : List Nat
  deriving DecidableEq, Repr

inductive SessionAction where
  | push (u : Nat)
  | resolve (r : StopReason)
  | reject
  | close
  | run
  deriving DecidableEq, Repr

/-- One atomic scheduler event.  Each branch transcribes the
corresponding callback, or the generator's synchronous continuation. -/
def sessionStep (s : TurnState) (a : SessionAction) : TurnState :=
  match a with
  | .push u =>
      -- handleUpdate: deliver directly to a registered resolver, else buffer
      if s.updateResolver then
        { s with updateResolver := false, pos := .resumed (some u) }
      else
        { s with pendingUpdates := s.pendingUpdates ++ [u] }
  | .resolve r =>
      -- .then: record stop reason, mark complete, signal a waiting consumer
      if s.updateResolver then
        { s with lastStopReason := r, promptComplete := true,
                 updateResolver := false, pos := .resumed none }
      else
        { s with lastStopReason := r, promptComplete := true }
  | .reject =>
      -- .catch: mark complete, signal a waiting consumer; rethrows the
      -- error (rejecting promptPromise) only when the connection is not closed
      if s.updateResolver then
        { s with promptComplete := true, rpcRejected := !s.connectionClosed,
                 updateResolver := false, pos := .resumed none }
      else
        { s with promptComplete := true, rpcRejected := !s.connectionClosed }
  | .close =>
      -- abort listener: mark closed and complete, unblock a waiting consumer
      if s.updateResolver then
        { s with connectionClosed := true, promptComplete := true,
                 updateResolver := false, pos := .resumed none }
      else
        { s with connectionClosed := true, promptComplete := true }
  | .run =>
      match s.pos with
      | .atLoop =>
          -- waitForUpdate: closed check, then buffered updates, then
          -- completion check, else register a resolver
          if s.connectionClosed then { s with pos := .resumed none }
          else
            match s.pendingUpdates with
            | u :: rest => { s with pendingUpdates := rest, pos := .resumed (some u) }
            | [] =>
                if s.promptComplete then { s with pos := .resumed none }
                else { s with updateResolver := true, pos := .waiting }
      | .resumed uo =>
          -- the continuation after `await this.waitForUpdate()`:
          -- `if (update === null || this.promptComplete)` enters the drain
          -- loop (discarding a non-null `update`), else yields `update`
          (match uo with
           | some u =>
               if s.promptComplete then { s with pos := .draining }
               else { s with out := s.out ++ [u], pos := .atLoop }
           | none => { s with pos := .draining })
      | .draining =>
          -- `while (this.pendingUpdates.length > 0) yield shift()`
          match s.pendingUpdates with
          | u :: rest => { s with pendingUpdates := rest, out := s.out ++ [u] }
          | [] => { s with pos := .done }
      | .waiting => s
      | .done => s

/-- Run a schedule of atomic events. -/
def sessionExec (s : TurnState) (sched : List SessionAction) : TurnState :=
  sched.foldl sessionStep s

/-- The updates pushed by a schedule, in order. -/
def pushesOf (sched : List SessionAction) : List Nat :=
  sched.filterMap (fun a => match a with | .push u => some u | _ => none)

/-- Errors thrown by `Session` methods (`ConnectionClosedError` from
`errors.ts`). -/
inductive SdkError where
  | connectionClosed
  deriving DecidableEq, Repr

/-- Entering the body of `Session.prompt()`: throw `ConnectionClosedError`
when the connection is closed, otherwise reset `promptComplete` and
`pendingUpdates` and start the generator at the top of its loop. -/
def promptStart (s : TurnState) : Except SdkError TurnState :=
  if s.connectionClosed then .error .connectionClosed
  else .ok { s with promptComplete := false, pendingUpdates := [],
                    pos := .atLoop, out := [] }

/-- The observable outcome once the generator has finished: after the
loop breaks, `await promptPromise` is reached only when the connection is
not closed, and its rejection surfaces as `ConnectionClosedError`;
otherwise the stream's return value is `lastStopReason` and its yielded
updates are `out`. -/
def promptOutcome (s : TurnState) : Option (Except SdkError (List Nat × StopReason)) :=
  if s.pos = .done then
    some (if s.rpcRejected && !s.connectionClosed then .error .connectionClosed
          else .ok (s.out, s.lastStopReason))
  else none

/-- A session as constructed by `client.newSession()`, at the instant the
first `prompt()` body begins. -/
def initialTurn : TurnState :=
  { pendingUpdates := [], updateResolver := false, promptComplete := false,
    lastStopReason := .end_turn, connectionClosed := false, rpcRejected := false,
    pos := .atLoop, out := [] }

/-- What the connection is asked to do by a session method. -/
inductive ConnEffect where
  | noop
  | cancelRpc
  | setSessionModeRpc
  deriving DecidableEq, Repr

/-- Embedding of `Session.cancel()` (closure-aware variant): on a closed
connection it returns immediately (no error, no connection use);
otherwise it issues `connection.cancel`. -/
def sessionCancel (connectionClosed : Bool) : Except SdkError ConnEffect :=
  if connectionClosed then .ok .noop else .ok .cancelRpc

/-- Embedding of `Session.setMode()` (closure-aware variant): throws
`ConnectionClosedError` on a closed connection, otherwise issues
`connection.setSessionMode`. -/
def sessionSetMode (connectionClosed : Bool) : Except SdkError ConnEffect :=
  if connectionClosed then .error .connectionClosed else .ok .setSessionModeRpc

/-!
## Observation helpers for statements about mapper outputs
-/

/-- Field `k` of the first event of a successful mapper output. -/
def headField (r : Except JsErr (List JValue)) (k : String) : JValue :=
  match r with
  | .ok (e :: _) => e.field k
  | _ => .vUndefined

/-- Field `k` of the last event of a successful mapper output. -/
def lastField (r : Except JsErr (List JValue)) (k : String) : JValue :=
  match r with
  | .ok evs =>
      match evs.getLast? with
      | some e => e.field k
      | none => .vUndefined
  | .error _ => .vUndefined

/-- How many events of a successful mapper output carry the given `type`
tag (zero for a thrown error). -/
def countType (r : Except JsErr (List JValue)) (tyName : String) : Nat :=
  match r with
  | .ok evs => (evs.filter (fun e => (e.field "type").isStrEq tyName)).length
  | .error _ => 0

theorem isStrEq_eq_true_iff (v : JValue) (lit : String) :
    v.isStrEq lit = true ↔ v = vStr lit := by
  cases v <;> simp [JValue.isStrEq]

theorem isStrEq_vStr (s lit : String) : (vStr s).isStrEq lit = decide (s = lit) := rfl

theorem truthy_notNullish {v : JValue} (h : v.truthy = true) : v.notNullish = true := by
  cases v <;> simp_all [JValue.truthy, JValue.notNullish]

theorem get_vObj (fs : List (String × JValue)) (k : String) :
    (vObj fs).get k = .ok ((JValue.lookupField fs k).getD vUndefined) := rfl

theorem exceptBind_ite {α β ε : Type} (c : Prop) [Decidable c] (a b : Except ε α)
    (k : α → Except ε β) :
    ((if c then a else b) >>= k) = if c then a >>= k else b >>= k := by
  split <;> rfl

theorem exceptOkBind {α β ε : Type} (v : α) (k : α → Except ε β) :
    ((Except.ok v : Except ε α) >>= k) = k v := rfl

theorem lastField_ite (c : Prop) [Decidable c] (a b : Except JsErr (List JValue))
    (k : String) :
    lastField (if c then a else b) k = if c then lastField a k else lastField b k := by
  split <;> rfl

theorem countType_ite (c : Prop) [Decidable c] (a b : Except JsErr (List JValue))
    (ty : String) :
    countType (if c then a else b) ty = if c then countType a ty else countType b ty := by
  split <;> rfl

/-- The updates a session turn may still surface: already yielded, carried
by a settled-but-unconsumed `waitForUpdate` promise, or buffered. -/
def carrierUpdates (s : TurnState) : List Nat :=
  s.out ++ (match s.pos with | .resumed (some u) => [u] | _ => []) ++ s.pendingUpdates

theorem carrierUpdates_step (s : TurnState) (a : SessionAction) (x : Nat)
    (hx : x ∈ carrierUpdates (sessionStep s a)) :
    x ∈ carrierUpdates s ∨ x ∈ pushesOf [a] := by
  cases a with
  | push u =>
      by_cases hr : s.updateResolver <;>
        simp_all [carrierUpdates, sessionStep, pushesOf, List.mem_append] <;> tauto
  | resolve r =>
      by_cases hr : s.updateResolver <;>
        simp_all [carrierUpdates, sessionStep, pushesOf, List.mem_append] <;> tauto
  | reject =>
      by_cases hr : s.updateResolver <;>
        simp_all [carrierUpdates, sessionStep, pushesOf, List.mem_append] <;> tauto
  | close =>
      by_cases hr : s.updateResolver <;>
        simp_all [carrierUpdates, sessionStep, pushesOf, List.mem_append] <;> tauto
  | run =>
      cases hp : s.pos with
      | atLoop =>
          by_cases hc : s.connectionClosed
          · simp_all [carrierUpdates, sessionStep, List.mem_append]
          · cases hq : s.pendingUpdates with
            | nil =>
                by_cases hdone : s.promptComplete <;>
                  simp_all [carrierUpdates, sessionStep, List.mem_append]
            | cons u rest =>
                simp_all [carrierUpdates, sessionStep, List.mem_append] <;> tauto
      | waiting => simp_all [carrierUpdates, sessionStep]
      | resumed uo =>
          cases uo with
          | none => simp_all [carrierUpdates, sessionStep, List.mem_append]
          | some u =>
              by_cases hdone : s.promptComplete <;>
                simp_all [carrierUpdates, sessionStep, List.mem_append] <;> tauto
      | draining =>
          cases hq : s.pendingUpdates with
          | nil => simp_all [carrierUpdates, sessionStep, List.mem_append]
          | cons u rest =>
              simp_all [carrierUpdates, sessionStep, List.mem_append] <;> tauto
      | done => simp_all [carrierUpdates, sessionStep]

theorem carrierUpdates_exec (sched : List SessionAction) :
    ∀ (s : TurnState) (x : Nat), x ∈ carrierUpdates (sessionExec s sched) →
      x ∈ carrierUpdates s ∨ x ∈ pushesOf sched := by
  induction sched with
  | nil => intro s x hx; exact Or.inl hx
  | cons a rest ih =>
      intro s x hx
      have h1 := ih (sessionStep s a) x hx
      rcases h1 with h1 | h1
      · rcases carrierUpdates_step s a x h1 with h2 | h2
        · exact Or.inl h2
        · right
          simp_all [pushesOf]
      · right
        cases a <;> simp_all [pushesOf]

/-!
## Claims
-/

/-- C1.  Claim: a `Session.prompt()` stream delivers, in push order, every
notification pushed before the RPC resolves, under every interleaving.
The code refutes this: in the realistic schedule below the consumer is
waiting when update 1 arrives (yielded), updates 2 and 3 are buffered
while the consumer is busy, the RPC then resolves, and when the consumer
pulls again `waitForUpdate` dequeues update 2 but the generator's
`if (update === null || this.promptComplete)` check observes
`promptComplete` and enters the drain loop, discarding the already
dequeued update 2.  Three updates are pushed before the RPC resolves, yet
the stream yields only `[1, 3]` and then completes normally. -/
theorem prompt_drops_dequeued_update_on_completion :
    pushesOf [.run, .push 1, .run, .push 2, .push 3,
              .resolve .end_turn, .run, .run, .run, .run] = [1, 2, 3] ∧
    (sessionExec initialTurn
      [.run, .push 1, .run, .push 2, .push 3,
       .resolve .end_turn, .run, .run, .run, .run]).out = [1, 3] ∧
    promptOutcome (sessionExec initialTurn
      [.run, .push 1, .run, .push 2, .push 3,
       .resolve .end_turn, .run, .run, .run, .run]) =
      some (.ok ([1, 3], .end_turn)) :=
  ⟨rfl, rfl, rfl⟩

/-- C2 counterexample.  Claim: every operation on a closed session
(`prompt`, `setMode`, `cancel`) fails with a distinct closed-connection
error.  `Session.cancel()` refutes this: on a closed session it returns
successfully without touching the connection. -/
theorem cancel_on_closed_session_succeeds :
    sessionCancel true = .ok .noop ∧
    sessionCancel true ≠ .error SdkError.connectionClosed :=
  ⟨rfl, by simp [sessionCancel]⟩

/-- C2 amended.  If the connection closes while a `prompt()` consumer is
awaiting the next update with nothing buffered, the await resolves, the
stream terminates without throwing, the returned stop reason is the last
known value, and the session is marked closed; thereafter `prompt` and
`setMode` fail immediately with `ConnectionClosedError`, while `cancel`
returns immediately as a no-op (without using the connection) rather than
failing. -/
theorem closure_unblocks_waiter_and_closed_session_fails_fast
    (r : StopReason) (s : TurnState) (hclosed : s.connectionClosed = true) :
    promptOutcome (sessionExec { initialTurn with lastStopReason := r }
        [.run, .close, .run, .run]) = some (.ok ([], r)) ∧
    (sessionExec { initialTurn with lastStopReason := r }
        [.run, .close, .run, .run]).connectionClosed = true ∧
    promptStart s = .error .connectionClosed ∧
    sessionSetMode true = .error .connectionClosed ∧
    sessionCancel true = .ok .noop := by
  refine ⟨rfl, rfl, ?_, rfl, rfl⟩
  simp [promptStart, hclosed]

/-- C2 witness: the amended theorem applied to a cancelled prior stop
reason and a concrete closed session. -/
theorem closure_unblocks_waiter_witness :
    promptOutcome (sessionExec { initialTurn with lastStopReason := .cancelled }
        [.run, .close, .run, .run]) = some (.ok ([], .cancelled)) ∧
    promptStart { initialTurn with connectionClosed := true } =
      .error .connectionClosed := by
  have h := closure_unblocks_waiter_and_closed_session_fails_fast
    .cancelled { initialTurn with connectionClosed := true } rfl
  exact ⟨h.1, h.2.2.1⟩

/-- C10.  At the start of every `Session.prompt()` body the pending-update
buffer is reset to empty and the prompt-complete flag to `false`, so
updates buffered during (or after) an earlier turn are discarded: every
update a turn's stream yields was pushed during that turn's schedule.
(`s.updateResolver = false` records that no earlier turn is still parked
in `waitForUpdate`; the resolver is only registered while a turn's
generator is suspended there.) -/
theorem prompt_resets_buffer_and_streams_only_current_turn_pushes
    (s t : TurnState) (hres : s.updateResolver = false)
    (hstart : promptStart s = .ok t) (sched : List SessionAction) (u : Nat)
    (hu : u ∈ (sessionExec t sched).out) :
    t.pendingUpdates = [] ∧ t.promptComplete = false ∧ t.out = [] ∧
    u ∈ pushesOf sched := by
  have hnc : s.connectionClosed = false := by
    by_contra hc
    rw [Bool.not_eq_false] at hc
    simp [promptStart, hc] at hstart
  simp only [promptStart, hnc, Bool.false_eq_true, if_false, Except.ok.injEq] at hstart
  subst hstart
  refine ⟨rfl, rfl, rfl, ?_⟩
  rcases carrierUpdates_exec sched _ u
      (by unfold carrierUpdates
          exact List.mem_append_left _ (List.mem_append_left _ hu)) with h | h
  · simp [carrierUpdates] at h
  · exact h

/-- C10 witness: a session with a stale two-element buffer starts a new
turn; the turn's stream yields update 5, which was pushed during the
turn. -/
theorem prompt_resets_buffer_witness :
    5 ∈ pushesOf [.run, .push 5, .run, .resolve .end_turn, .run, .run] := by
  have h := prompt_resets_buffer_and_streams_only_current_turn_pushes
    { initialTurn with pendingUpdates := [7, 8] }
    { initialTurn with pendingUpdates := [] }
    rfl rfl [.run, .push 5, .run, .resolve .end_turn, .run, .run] 5 (by decide)
  exact h.2.2.2

/-- C3.  Claim: every mapper is total on valid JSON — unrecognized types
yield `[]` without raising, and structurally-unexpected recognized types
also never throw.  The unrecognized-type half holds (last three
conjuncts), but the codex mapper throws a `TypeError` on a
`turn.completed` event without a `usage` field (it reads
`event.usage.input_tokens` unguarded) and on a `turn.failed` event
without an `error` field, and the claude mapper throws on a `result`
message without a `result` field (it reads `result.usage?...` after
`const result = message.result`). -/
theorem mappers_throw_on_structurally_unexpected_input :
    mapCodexEvent (.vObj [("type", .vStr "turn.completed")]) =
      .error (.typeError "Cannot read properties of undefined (reading input_tokens)") ∧
    mapCodexEvent (.vObj [("type", .vStr "turn.failed")]) =
      .error (.typeError "Cannot read properties of undefined (reading message)") ∧
    mapClaudeEvent (.vObj [("type", .vStr "result")]) =
      .error (.typeError "Cannot read properties of undefined (reading usage)") ∧
    mapCodexEvent (.vObj [("type", .vStr "mystery.event")]) = .ok [] ∧
    mapClaudeEvent (.vObj [("type", .vStr "mystery_type")]) = .ok [] ∧
    mapGeminiEvent (.vObj [("type", .vStr "mystery_type")]) = .ok [] :=
  ⟨rfl, rfl, rfl, rfl, rfl, rfl⟩

/-- C4.  Claim: `query` with an explicit `options.backend` does not verify
the backend's credential environment variable.  The code does verify it:
the explicit branch calls `getApiKey(backend)`, which throws when the
variable is unset, before any event stream is constructed.  Discovery is
indeed bypassed (the result is independent of the binary-probing oracle),
and with the variable set the explicit backend is returned. -/
theorem query_explicit_backend_checks_api_key :
    (∀ (b : Backend) (env : Env) (hb hb' : Backend → Bool),
        queryResolveBackend (some b) hb env = queryResolveBackend (some b) hb' env) ∧
    queryResolveBackend (some .claude) (fun _ => true) [] =
      .error "Backend 'claude' requires ANTHROPIC_API_KEY environment variable to be set" ∧
    queryResolveBackend (some .claude) (fun _ => true)
      [("ANTHROPIC_API_KEY", "test-key")] = .ok .claude :=
  ⟨fun _ _ _ _ => rfl, rfl, rfl⟩

/-- C5 counterexample.  Claim: `detect()` returns the highest-priority
backend that has both a binary and a non-empty credential.  With the
claude and codex binaries present but only `OPENAI_API_KEY` set, the
claim's available set is `[codex]`, yet `detectBackend` picks claude by
binary priority and then fails on its missing credential instead of
returning codex. -/
theorem detect_ignores_credentials_when_selecting :
    specAvailableBackends (fun b => b != Backend.gemini)
      [("OPENAI_API_KEY", "sk-test")] = [.codex] ∧
    detectBackend (fun b => b != Backend.gemini) [("OPENAI_API_KEY", "sk-test")] =
      .error ("Found 'claude' binary but API key not configured. " ++
              "Backend 'claude' requires ANTHROPIC_API_KEY environment variable to be set") ∧
    (detectBackend (fun b => b != Backend.gemini)
      [("OPENAI_API_KEY", "sk-test")]).isOk = false :=
  ⟨rfl, rfl, rfl⟩

/-- C5 amended.  `detectBackend` is a pure function of the binary-probing
outcome and the environment (so repeated calls agree); it selects the
highest-priority backend whose binary is found, ignoring credentials
during selection, and then: if no binary is found it fails with the
binary-absent message; if the selected backend's credential resolves it
returns that backend and key; if the credential is missing it fails with
the distinct credential-absent message.  The claim's binary-AND-credential
availability notion is instead what `isBackendAvailable` computes. -/
theorem detect_selects_first_binary_then_checks_key
    (hasBinary : Backend → Bool) (env : Env) :
    ([Backend.claude, .codex, .gemini].filter hasBinary = [] →
      detectBackend hasBinary env =
        .error "No agent binaries found. Please install one of: claude, codex, or gemini") ∧
    (∀ b rest, [Backend.claude, .codex, .gemini].filter hasBinary = b :: rest →
      (∀ k, getApiKey b env = .ok k → detectBackend hasBinary env = .ok ⟨b, k⟩) ∧
      (∀ m, getApiKey b env = .error m →
        detectBackend hasBinary env =
          .error ("Found '" ++ b.name ++ "' binary but API key not configured. " ++ m))) ∧
    (∀ b, b ∈ specAvailableBackends hasBinary env ↔
        isBackendAvailable hasBinary env b = true) ∧
    ("No agent binaries found. Please install one of: claude, codex, or gemini" ≠
      "Found 'claude' binary but API key not configured. " ++
      "Backend 'claude' requires ANTHROPIC_API_KEY environment variable to be set") := by
  refine ⟨?_, ?_, ?_, by decide⟩
  · intro h
    simp only [detectBackend]
    rw [h]
  · intro b rest h
    constructor
    · intro k hk
      simp only [detectBackend]
      rw [h]
      simp [hk]
    · intro m hm
      simp only [detectBackend]
      rw [h]
      simp [hm]
  · intro b
    have hx : isBackendAvailable hasBinary env b =
        (hasBinary b && (match List.lookup b.envVar env with
                         | some k => k != ""
                         | none => false)) := by
      unfold isBackendAvailable
      cases hasBinary b <;> simp
    simp only [specAvailableBackends, List.mem_filter, hx]
    cases b <;> simp

/-- C5 witness: with all binaries present and `ANTHROPIC_API_KEY` set,
the amended theorem yields claude with its key, and relates the spec's
availability notion to `isBackendAvailable` for codex. -/
theorem detect_selects_first_binary_witness :
    detectBackend (fun _ => true) [("ANTHROPIC_API_KEY", "k")] = .ok ⟨.claude, "k"⟩ ∧
    (Backend.codex ∈ specAvailableBackends (fun _ => true) [("ANTHROPIC_API_KEY", "k")] ↔
      isBackendAvailable (fun _ => true) [("ANTHROPIC_API_KEY", "k")] .codex = true) := by
  have h := detect_selects_first_binary_then_checks_key
    (fun _ => true) [("ANTHROPIC_API_KEY", "k")]
  exact ⟨(h.2.1 .claude [.codex, .gemini] rfl).1 "k" rfl, h.2.2.1 .codex⟩

/-- C6 counterexample.  Claim: a mapper never produces any severity other
than `"error"` for a non-`"warning"` raw severity — `"fatal"` is
synthesized only by the driver.  The codex mapper refutes this: a raw
top-level `{type:"error"}` event (which carries no severity at all, hence
not `"warning"`) is mapped with severity `"fatal"`. -/
theorem codex_mapper_emits_fatal_severity :
    mapCodexEvent (.vObj [("type", .vStr "error"), ("message", .vStr "boom")]) =
      .ok [.vObj [("type", .vStr "error"), ("severity", .vStr "fatal"),
                  ("message", .vStr "boom")]] ∧
    headField (mapCodexEvent (.vObj [("type", .vStr "error"), ("message", .vStr "boom")]))
      "severity" ≠ .vStr "error" := by
  refine ⟨rfl, ?_⟩
  intro h
  have h' : JValue.vStr "fatal" = .vStr "error" := h
  simp at h'

/-- C6 amended.  The gemini mapper flattens severities: the mapped error
event's severity is `"warning"` exactly when the raw severity is the
string `"warning"` (so `"warning"` is preserved), and `"error"` for
every other raw severity; a codex item-level error is mapped with
severity `"error"`; but the codex mapper's top-level `error` event is
emitted with severity `"fatal"` (in addition to the driver's own fatal
events for mid-stream process failure). -/
theorem mapper_severity_flattening (sev msg ts m iid : JValue) :
    (headField (mapGeminiEvent (.vObj [("type", .vStr "error"), ("severity", sev),
        ("message", msg), ("timestamp", ts)])) "severity" = .vStr "warning" ↔
      sev = .vStr "warning") ∧
    (sev ≠ .vStr "warning" →
      headField (mapGeminiEvent (.vObj [("type", .vStr "error"), ("severity", sev),
        ("message", msg), ("timestamp", ts)])) "severity" = .vStr "error") ∧
    (sev = .vStr "warning" →
      headField (mapGeminiEvent (.vObj [("type", .vStr "error"), ("severity", sev),
        ("message", msg), ("timestamp", ts)])) "severity" = .vStr "warning") ∧
    headField (mapCodexItem (.vObj [("type", .vStr "error"), ("message", m), ("id", iid)])
        "item.completed") "severity" = .vStr "error" ∧
    headField (mapCodexEvent (.vObj [("type", .vStr "error"), ("message", m)]))
        "severity" = .vStr "fatal" := by
  have hg : headField (mapGeminiEvent (.vObj [("type", .vStr "error"), ("severity", sev),
      ("message", msg), ("timestamp", ts)])) "severity" =
      (if sev.isStrEq "warning" then JValue.vStr "warning" else .vStr "error") := rfl
  refine ⟨?_, ?_, ?_, rfl, rfl⟩
  · rw [hg]
    by_cases hs : sev.isStrEq "warning" = true
    · rw [if_pos hs]
      simp [(isStrEq_eq_true_iff sev "warning").mp hs]
    · rw [if_neg hs]
      constructor
      · intro h'
        simp at h'
      · intro h'
        exact absurd ((isStrEq_eq_true_iff sev "warning").mpr h') hs
  · intro hw
    rw [hg, if_neg (fun hs => hw ((isStrEq_eq_true_iff sev "warning").mp hs))]
  · intro hww
    rw [hg, if_pos ((isStrEq_eq_true_iff sev "warning").mpr hww)]

/-- C6 witness: the amended theorem at raw severities `"fatal"` and
`"warning"` — the gemini mapper flattens `"fatal"` to `"error"` and
preserves `"warning"`, and the codex mapper's top-level error event
carries `"fatal"`. -/
theorem mapper_severity_flattening_witness :
    headField (mapGeminiEvent (.vObj [("type", .vStr "error"),
        ("severity", .vStr "fatal"), ("message", .vStr "m"), ("timestamp", .vUndefined)]))
      "severity" = .vStr "error" ∧
    headField (mapGeminiEvent (.vObj [("type", .vStr "error"),
        ("severity", .vStr "warning"), ("message", .vStr "m"), ("timestamp", .vUndefined)]))
      "severity" = .vStr "warning" ∧
    headField (mapCodexEvent (.vObj [("type", .vStr "error"), ("message", .vStr "m")]))
      "severity" = .vStr "fatal" := by
  have h1 := mapper_severity_flattening (.vStr "fatal") (.vStr "m") .vUndefined
    (.vStr "m") .vUndefined
  have h2 := mapper_severity_flattening (.vStr "warning") (.vStr "m") .vUndefined
    (.vStr "m") .vUndefined
  exact ⟨h1.2.1 (by simp), h2.2.2.1 rfl, h1.2.2.2.2⟩

/-- C7.  The gemini mapper on the spec's scenario-a result event yields
exactly a `turn/completed` event with usage 200/100, a
`metrics/session_summary` event with `per_tool.all_tools.calls = 5`, and
a `session/end` event with `session_id = "unknown"`; and on any `result`
event without a `stats` field no metrics event is emitted at all. -/
theorem gemini_result_usage_metrics_session :
    mapGeminiEvent (.vObj [("type", .vStr "result"), ("status", .vStr "success"),
        ("stats", .vObj [("input_tokens", .vNum 200), ("output_tokens", .vNum 100),
                         ("tool_calls", .vNum 5)])]) =
      .ok [.vObj [("type", .vStr "turn"), ("subtype", .vStr "completed"),
                  ("timestamp", .vUndefined),
                  ("usage", .vObj [("input_tokens", .vNum 200),
                                   ("output_tokens", .vNum 100)])],
           .vObj [("type", .vStr "metrics"), ("subtype", .vStr "session_summary"),
                  ("timestamp", .vUndefined),
                  ("per_tool", .vObj [("all_tools", .vObj [("calls", .vNum 5)])])],
           .vObj [("type", .vStr "session"), ("subtype", .vStr "end"),
                  ("session_id", .vStr "unknown"), ("backend", .vStr "gemini"),
                  ("timestamp", .vUndefined)]] ∧
    (∀ (st ts : JValue),
      countType (mapGeminiEvent (.vObj [("type", .vStr "result"), ("status", st),
          ("timestamp", ts)])) "metrics" = 0) := by
  refine ⟨rfl, ?_⟩
  intro st ts
  cases hb : st.isStrEq "error" <;>
    simp [mapGeminiEvent, countType, hb, isStrEq_vStr, JValue.get, JValue.lookupField,
          JValue.getOpt, JValue.truthy, JValue.jsOr, JValue.field,
          exceptOkBind, Except.pure]

/-- C8.  For any raw terminal/result event lacking an embedded session
identifier, the mapped `session` event's `session_id` is the literal
string `"unknown"`: the gemini mapper's result branch always ends with a
`session/end` event whose id is `"unknown"` (for every status and stats
shape), and the claude mapper's result branch ends with a `session/end`
event carrying the embedded `sessionId` when it is truthy and `"unknown"`
otherwise. -/
theorem result_session_id_sentinel (st stats ts sid : JValue) :
    lastField (mapGeminiEvent (.vObj [("type", .vStr "result"), ("status", st),
        ("stats", stats), ("timestamp", ts)])) "session_id" = .vStr "unknown" ∧
    lastField (mapGeminiEvent (.vObj [("type", .vStr "result"), ("status", st),
        ("stats", stats), ("timestamp", ts)])) "type" = .vStr "session" ∧
    lastField (mapClaudeEvent (.vObj [("type", .vStr "result"),
        ("result", .vObj [("sessionId", sid)])])) "type" = .vStr "session" ∧
    lastField (mapClaudeEvent (.vObj [("type", .vStr "result"),
        ("result", .vObj [("sessionId", sid)])])) "session_id" =
      (if sid.truthy then sid else .vStr "unknown") := by
  refine ⟨?_, ?_, rfl, rfl⟩ <;>
  · cases hb : st.isStrEq "error" with
    | true =>
        simp [mapGeminiEvent, lastField, hb, isStrEq_vStr, get_vObj,
              JValue.lookupField, JValue.getOpt, JValue.jsOr, JValue.truthy,
              JValue.field, exceptOkBind, Except.pure]
    | false =>
        cases hst : stats.truthy with
        | false =>
            simp [mapGeminiEvent, lastField, hb, hst, isStrEq_vStr, get_vObj,
                  JValue.lookupField, JValue.getOpt, JValue.jsOr,
                  JValue.field, exceptOkBind, Except.pure]
        | true =>
            simp [mapGeminiEvent, lastField, hb, hst, isStrEq_vStr,
                  get_eq_ok_field (truthy_notNullish hst), get_vObj,
                  JValue.lookupField, JValue.getOpt, JValue.jsOr,
                  JValue.field, exceptOkBind, Except.pure]

/-- List of per-change action events produced by `codexFileChangeEvent`
over a changes array, when the item exposes `id` and `status` and no
entry is nullish. -/
theorem forEachM_codexFileChangeEvent (item iid ist : JValue)
    (hid : item.get "id" = .ok iid) (hst : item.get "status" = .ok ist)
    (cs : List JValue) (h : ∀ c ∈ cs, c.notNullish = true) :
    forEachM (codexFileChangeEvent item) cs =
      .ok (cs.map (fun c => .vObj [("type", .vStr "action"),
        ("subtype", .vStr "file_change"), ("action_id", iid),
        ("status", if ist.isStrEq "completed" then .vStr "completed" else .vStr "failed"),
        ("file_path", c.field "path"), ("change_type", c.field "kind")])) := by
  induction cs with
  | nil => rfl
  | cons c rest ih =>
      have hc : c.notNullish = true := h c (List.mem_cons_self c rest)
      have hrest := ih (fun x hx => h x (List.mem_cons_of_mem _ hx))
      simp [forEachM, codexFileChangeEvent, hid, hst,
            get_eq_ok_field hc, hrest, exceptOkBind, Except.pure]

/-- C9.  A raw codex `file_change` item with K entries in `changes` maps
to exactly K unified `action` events, in input order, each carrying that
entry's `path` as `file_path` and `kind` as `change_type`, with status
`"completed"` when the item's status is `"completed"` and `"failed"`
otherwise. -/
theorem codex_file_change_expansion (cs : List JValue) (st iid : JValue)
    (h : ∀ c ∈ cs, c.notNullish = true) :
    mapCodexEvent (.vObj [("type", .vStr "item.completed"),
      ("item", .vObj [("type", .vStr "file_change"), ("id", iid),
                      ("status", st), ("changes", .vArr cs)])]) =
      .ok (cs.map (fun c => .vObj [("type", .vStr "action"),
        ("subtype", .vStr "file_change"), ("action_id", iid),
        ("status", if st.isStrEq "completed" then .vStr "completed" else .vStr "failed"),
        ("file_path", c.field "path"), ("change_type", c.field "kind")])) := by
  have hlem := forEachM_codexFileChangeEvent
    (.vObj [("type", .vStr "file_change"), ("id", iid),
            ("status", st), ("changes", .vArr cs)]) iid st rfl rfl cs h
  cases hf : st.isStrEq "failed" <;>
    simp [mapCodexEvent, mapCodexItem, mapItemStatus, hf, hlem, isStrEq_vStr,
          JValue.get, JValue.lookupField, exceptOkBind, Except.pure]

/-- C9 witness: the spec's scenario b — a completed `file_change` item
with two entries (`update` on `a.js`, `add` on `b.js`) expands to exactly
two completed `action` events in input order. -/
theorem codex_file_change_expansion_witness :
    mapCodexEvent (.vObj [("type", .vStr "item.completed"),
      ("item", .vObj [("type", .vStr "file_change"), ("id", .vStr "item-1"),
        ("status", .vStr "completed"),
        ("changes", .vArr [.vObj [("path", .vStr "a.js"), ("kind", .vStr "update")],
                           .vObj [("path", .vStr "b.js"), ("kind", .vStr "add")]])])]) =
      .ok [.vObj [("type", .vStr "action"), ("subtype", .vStr "file_change"),
                  ("action_id", .vStr "item-1"), ("status", .vStr "completed"),
                  ("file_path", .vStr "a.js"), ("change_type", .vStr "update")],
           .vObj [("type", .vStr "action"), ("subtype", .vStr "file_change"),
                  ("action_id", .vStr "item-1"), ("status", .vStr "completed"),
                  ("file_path", .vStr "b.js"), ("change_type", .vStr "add")]] := by
  have h := codex_file_change_expansion
    [.vObj [("path", .vStr "a.js"), ("kind", .vStr "update")],
     .vObj [("path", .vStr "b.js"), ("kind", .vStr "add")]]
    (.vStr "completed") (.vStr "item-1") (by decide)
  simpa using h

end AgentSdk
